import Mathlib

set_option maxRecDepth 100000

/-!
Shallow embedding of the two programs of this repository:

* `src/echo-server/bin/echo-server.py` — a TCP echo handler built on
  `socketserver.BaseRequestHandler`.
* `src/pyaudio_trx/trx.py` — an audio relay with a sender (`AudioSender`),
  a receiver (`AudioReceiver`) and shared lifecycle code (`BaseAudio`).

Conventions of the embedding:

* The repository is Python 3 (the echo server passes the keyword argument
  `flush=True` to the `print` function, which is a syntax error in Python 2),
  so `socket.recv` yields `bytes`, `/` on integers is true division
  yielding a float, and a `bytes` value never compares equal to a `str`
  value. CPython float arithmetic is modelled exactly as IEEE binary64
  with round to nearest, ties to even (see the binary64 model section).
* Byte strings are `List Nat` (each entry one byte).
* The audio library (pyaudio) and the OS socket stack are external
  collaborators; only their documented contracts are modelled
  (`Stream.read(n)` returns `n × channels × sample_width` bytes,
  `recv(n)` returns at most `n` bytes and returns the empty byte string
  once the peer has closed, an accepted connection is handled by the code
  in program order).
* Effects (logging, playback writes, file writes, socket sends) are
  reified as action lists so that ordering claims can be stated.
* Unbounded `while` loops are embedded with explicit fuel: a result of
  `none` means the loop has not exited within the given number of
  iterations; `∀ fuel, ... = none` states that the loop never exits.
-/

/-! ### Echo server (`src/echo-server/bin/echo-server.py`) -/

/-- The six ASCII whitespace bytes removed by Python's `bytes.strip()`:
space, tab, newline, carriage return, vertical tab, form feed. -/
def isPySpace (b : Nat) : Bool :=
  b == 32 || b == 9 || b == 10 || b == 13 || b == 11 || b == 12

/-- Drop leading Python whitespace bytes (the left half of `bytes.strip()`). -/
def lstripBytes : List Nat → List Nat
  | [] => []
  | b :: bs => if isPySpace b then lstripBytes bs else b :: bs

/-- Python's `bytes.strip()`: drop ASCII whitespace from both ends. -/
def stripBytes (l : List Nat) : List Nat :=
  ((lstripBytes ((lstripBytes l).reverse)).reverse)

/-- The observable effects of `EchoTCPHandler.handle`, in program order. -/
inductive EchoAction where
  | logClient (addr : String)
  | logData (d : List Nat)
  | sendAll (d : List Nat)
  deriving Repr, DecidableEq

/-- Embeds `EchoTCPHandler.handle`: `self.data = self.request.recv(1024).strip()`,
then print the client address, print the data, and `sendall` the data.
`recv(1024)` on a payload of `sent` bytes delivers at most the first 1024
of them. -/
def echoHandle (addr : String) (sent : List Nat) : List EchoAction :=
  let data := stripBytes (sent.take 1024)
  [.logClient addr, .logData data, .sendAll data]

/-- The byte strings written back to the client, in order, in a trace. -/
def echoResponses (tr : List EchoAction) : List (List Nat) :=
  tr.filterMap fun a =>
    match a with
    | .sendAll d => some d
    | _ => none

/-- Holds (`true`) iff some client-address log entry occurs strictly before the
first socket send in the trace. -/
def logsClientBeforeSend : List EchoAction → Bool
  | [] => false
  | .sendAll _ :: _ => false
  | .logClient _ :: rest =>
      rest.any fun a =>
        match a with
        | .sendAll _ => true
        | _ => false
  | .logData _ :: rest => logsClientBeforeSend rest

/-! ### Sender (`AudioSender` in `src/pyaudio_trx/trx.py`) -/

/-- The immutable per-session configuration held by `BaseAudio.__init__`
(the fields the sender's data path reads; `format` is fixed to
`pyaudio.paInt16`). -/
structure TxConfig where
  rate : Nat
  chunk_size : Nat
  channels : Nat
  duration : Nat
  deriving Repr, DecidableEq

/-- Sample width in bytes of `pyaudio.paInt16`
(`audio.get_sample_size(pyaudio.paInt16) = 2`). -/
def paInt16Width : Nat := 2

/-- pyaudio contract (external collaborator): `Stream.read(nframes)` on a
capture stream returns exactly `nframes × channels × sample_width` bytes
drawn from the device. The device is modelled as an infinite byte source
`src` read from offset `pos`. -/
def streamRead (src : Nat → Nat) (pos nframes channels : Nat) : List Nat :=
  (List.range (nframes * channels * paInt16Width)).map fun i => src (pos + i)

/-- Embeds `AudioSender.send_frame`: `data = self.stream.read(self.chunk_size)`
followed by `self.sock.sendall(data)`. Returns the byte string handed to
`sendall`. -/
def send_frame (cfg : TxConfig) (src : Nat → Nat) (pos : Nat) : List Nat :=
  streamRead src pos cfg.chunk_size cfg.channels

/-! #### IEEE binary64 model

CPython evaluates `self.rate / self.chunk_size * duration` in IEEE binary64
floating point. The model below represents a nonnegative binary64 value
exactly as a significand times a power of two and implements the IEEE
default rounding (round to nearest, ties to even) with plain natural-number
arithmetic, so every value here is computable by the kernel. Overflow to
infinity and subnormal underflow are not modelled: every value this
program computes lies well inside the normal range (magnitudes between
roughly 2^-60 and 2^60). -/

/-- Round the nonnegative fraction `n / d` to the nearest integer, ties to
the even integer — the IEEE binary64 default rounding, applied to a
significand already scaled into the binade `[2^52, 2^53)`. -/
def roundSigNearestEven (n d : Nat) : Nat :=
  let q := n / d
  let r := n % d
  if 2 * r < d then q
  else if d < 2 * r then q + 1
  else if q % 2 = 0 then q else q + 1

/-- Double the numerator of `n / d` (lowering the exponent to preserve the
value `(n / d) · 2^e`) until the fraction reaches `2^52`. Fuel-bounded;
the fuel used below covers exponents far beyond the binary64 range. -/
def scaleUp : Nat → Nat → Nat → ℤ → Nat × Nat × ℤ
  | 0, n, d, e => (n, d, e)
  | f + 1, n, d, e =>
      if n < 2 ^ 52 * d then scaleUp f (2 * n) d (e - 1) else (n, d, e)

/-- Double the denominator of `n / d` (raising the exponent to preserve
the value `(n / d) · 2^e`) until the fraction drops below `2^53`. -/
def scaleDown : Nat → Nat → Nat → ℤ → Nat × Nat × ℤ
  | 0, n, d, e => (n, d, e)
  | f + 1, n, d, e =>
      if 2 ^ 53 * d ≤ n then scaleDown f n (2 * d) (e + 1) else (n, d, e)

/-- A nonnegative IEEE binary64 value, represented exactly: the rational
number `m · 2^e`. -/
structure F64 where
  m : Nat
  e : ℤ
  deriving Repr, DecidableEq

/-- Round the nonnegative value `(n / d) · 2^e` to the nearest binary64
value, ties to even: scale the fraction into `[2^52, 2^53)` and round the
significand. Zero yields zero; `d = 0` corresponds to a Python
`ZeroDivisionError` and is outside the model. -/
def roundF64 (n d : Nat) (e : ℤ) : F64 :=
  if n = 0 ∨ d = 0 then ⟨0, 0⟩
  else
    let u := scaleUp 8400 n d e
    let v := scaleDown 8400 u.1 u.2.1 u.2.2
    ⟨roundSigNearestEven v.1 v.2.1, v.2.2⟩

/-- Conversion of a Python `int` to binary64 (exact below `2^53`, rounded
above), as performed by `int / int` and `float * int`. -/
def f64OfNat (k : Nat) : F64 := roundF64 k 1 0

/-- IEEE binary64 true division, correctly rounded: the exact quotient
`(a.m / b.m) · 2^(a.e - b.e)` rounded to nearest, ties to even. -/
def f64Div (a b : F64) : F64 := roundF64 a.m b.m (a.e - b.e)

/-- IEEE binary64 multiplication, correctly rounded: the exact product
`(a.m · b.m) · 2^(a.e + b.e)` rounded to nearest, ties to even. -/
def f64Mul (a b : F64) : F64 := roundF64 (a.m * b.m) 1 (a.e + b.e)

/-- Python `int()` applied to a nonnegative binary64 value: truncation
toward zero, which is the floor here. -/
def f64TruncNat (a : F64) : Nat :=
  if 0 ≤ a.e then a.m * 2 ^ a.e.toNat else a.m / 2 ^ (-a.e).toNat

/-- The loop bound of `AudioSender.send_frames_with_time_limit`:
`int(self.rate / self.chunk_size * duration)`, evaluated as CPython does:
the ints convert to binary64, `/` is true division and `*` multiplication,
each correctly rounded to nearest with ties to even, and `int()` truncates
toward zero (all values are nonnegative). -/
def timeLimitChunkCount (rate chunk_size duration : Nat) : Nat :=
  f64TruncNat
    (f64Mul (f64Div (f64OfNat rate) (f64OfNat chunk_size)) (f64OfNat duration))

/-- Embeds `AudioSender.send_frames_with_time_limit(duration)`:
`for i in range(0, int(self.rate / self.chunk_size * duration)): self.send_frame()`.
Returns the chunks sent, in order; consecutive frames read consecutive
device bytes. -/
def send_frames_with_time_limit (cfg : TxConfig) (src : Nat → Nat) : List (List Nat) :=
  (List.range (timeLimitChunkCount cfg.rate cfg.chunk_size cfg.duration)).map
    fun i => send_frame cfg src (i * (cfg.chunk_size * cfg.channels * paInt16Width))

/-- Modelled from the spec: the chunk count claimed in §8,
`round(rate/chunk_size × D)`, with round-half-up rounding
(`⌊x + 1/2⌋`; at the counterexample below the value is the same under
round-half-to-even). -/
def specRoundChunkCount (rate chunk_size duration : Nat) : Nat :=
  Nat.floor ((rate : ℚ) / (chunk_size : ℚ) * (duration : ℚ) + 1 / 2)

/-- Modelled from the spec: the chunk count claimed in §4.1,
`ceil(rate/chunk_size × duration)`. -/
def specCeilChunkCount (rate chunk_size duration : Nat) : Nat :=
  Nat.ceil ((rate : ℚ) / (chunk_size : ℚ) * (duration : ℚ))

/-- The two arms of `AudioSender.start_sending`. -/
inductive SendPlan where
  | continuous
  | timeLimited (chunks : Nat)
  deriving Repr, DecidableEq

/-- The branch taken by `AudioSender.start_sending`: `if self.duration:`
runs `send_frames_with_time_limit(self.duration)`, otherwise
`send_frames_continuously()`. A Python `int` is truthy iff nonzero. -/
def start_sending_plan (cfg : TxConfig) : SendPlan :=
  if cfg.duration ≠ 0 then
    .timeLimited (timeLimitChunkCount cfg.rate cfg.chunk_size cfg.duration)
  else
    .continuous

/-- The `argparse` default of `--duration`: `default=0`. -/
def cliDefaultDuration : Nat := 0

/-! ### Receiver (`AudioReceiver` in `src/pyaudio_trx/trx.py`) -/

/-- A Python value as far as the receiver's loop guard is concerned:
`conn.recv` yields `bytes`; the literal in the guard `while data != ''`
is a `str`. -/
inductive PyVal where
  | bytes (bs : List Nat)
  | str (s : String)
  deriving Repr, DecidableEq

/-- Python 3 equality between these values: two `bytes` compare by
content, two `str` compare by content, and a `bytes` value never equals
a `str` value (in Python 3 an empty bytes value does not equal the empty str). -/
def pyEq : PyVal → PyVal → Bool
  | .bytes a, .bytes b => a == b
  | .str a, .str b => a == b
  | _, _ => false

/-- OS socket contract (external collaborator): `conn.recv(1024)` on a
connection whose undelivered peer bytes are `s` returns up to 1024 bytes
and the rest of the stream; once the peer has closed and all bytes are
delivered (`s = []`) it returns the empty byte string. -/
def recv1024 (s : List Nat) : List Nat × List Nat :=
  (s.take 1024, s.drop 1024)

/-- The observable effects of `AudioReceiver.receive_audio`, in program
order. `playWrite` is `self.stream.write(data)`; `fileWrite` would be a
successful `writeframes` on the output file. -/
inductive RxAction where
  | streamOpen
  | playWrite (d : List Nat)
  | fileWrite (d : List Nat)
  | logDataStopped
  | streamStop
  | streamClose
  deriving Repr, DecidableEq

/-- How one call to `AudioReceiver.receive_audio` can end. -/
inductive RxOutcome where
  /-- The `while` loop exited, `"Data stopped."` was logged and the stream
  was stopped and closed; the handler returns. -/
  | finished (acts : List RxAction)
  /-- The body raised `NameError` on the bare global name `wf`
  (the source writes `wf.writeframes(data)`, not `self.wf.writeframes(data)`,
  and no global `wf` exists). -/
  | nameErrorOnWf (acts : List RxAction)
  deriving Repr, DecidableEq

/-- The `while data != '':` loop of `receive_audio`, with fuel bounding the
number of iterations. Per iteration, faithfully to the source:
`self.stream.write(data)`; `data = conn.recv(1024)`; debug log;
`frame_count += 1`; `if self.wf:` evaluate `wf.writeframes(data)` — which
raises `NameError` because `wf` is an undefined global. `none` means the
loop has not exited within `fuel` iterations. -/
def rxLoop : Nat → Bool → PyVal → List Nat → List RxAction → Option RxOutcome
  | 0, _, _, _, _ => none
  | fuel + 1, wfOpen, data, s, acc =>
      if pyEq data (.str "") then
        some (.finished (acc ++ [.logDataStopped, .streamStop, .streamClose]))
      else
        match data with
        | .str _ => none
        | .bytes bs =>
            let acc := acc ++ [.playWrite bs]
            let r := recv1024 s
            if wfOpen then some (.nameErrorOnWf acc)
            else rxLoop fuel wfOpen (.bytes r.1) r.2 acc

/-- Embeds `AudioReceiver.receive_audio(conn)`: open the playback stream, do a
first `data = conn.recv(1024)`, then run the loop. `s` is the full byte
stream the peer sends before closing; `wfOpen` is whether
`open_wave_file` set `self.wf`. -/
def receive_audio (fuel : Nat) (wfOpen : Bool) (s : List Nat) : Option RxOutcome :=
  let r := recv1024 s
  rxLoop fuel wfOpen (.bytes r.1) r.2 [.streamOpen]

/-- The byte strings successfully appended to the output file in a trace. -/
def fileWrites (acts : List RxAction) : List (List Nat) :=
  acts.filterMap fun a =>
    match a with
    | .fileWrite d => some d
    | _ => none

/-- The header fields `AudioReceiver.open_wave_file` sets on the WAV file:
`setnchannels(self.channels)`, `setsampwidth(self.audio.get_sample_size(self.format))`
with `format = paInt16`, `setframerate(self.rate)`. -/
structure WaveHeader where
  nchannels : Nat
  sampwidth : Nat
  framerate : Nat
  deriving Repr, DecidableEq

/-- The configuration fields the receiver reads (no duration). -/
structure RxConfig where
  rate : Nat
  chunk_size : Nat
  channels : Nat
  deriving Repr, DecidableEq

/-- Embeds `AudioReceiver.open_wave_file`: the header written for the output file. -/
def open_wave_file_header (cfg : RxConfig) : WaveHeader :=
  ⟨cfg.channels, paInt16Width, cfg.rate⟩

/-! ### Receiver accept loop (`AudioReceiver.listen_and_process`) -/

/-- The value of `errno.EINTR` on Linux. -/
def EINTR : Nat := 4

/-- What one `self.sock.accept()` attempt can yield: a timeout
(`socket.timeout`), a socket error with an errno, or a new connection
(identified by a number). -/
inductive AcceptEvent where
  | timeout
  | sockError (eno : Nat)
  | conn (c : Nat)
  deriving Repr, DecidableEq

/-- How `listen_and_process` stands after consuming a sequence of accept
outcomes. -/
inductive ListenResult where
  /-- Still in the accept loop, about to attempt another `accept`. -/
  | listening
  /-- Loop exited via `break` (socket error with `errno == EINTR`). -/
  | brokeOnEintr
  /-- Loop terminated by an unhandled `UnboundLocalError`: a non-EINTR
  socket error was swallowed by the bare `except socket.error` body, and
  control fell through to `self.log.info(... addr)` with the locals
  `conn`/`addr` never assigned — no connection can have been accepted
  earlier, because serving one never returns to the loop (see below). -/
  | crashedUnboundLocal
  /-- A connection was accepted and handed synchronously to
  `receive_audio`, which never returns when no output file is open
  (`rxLoop_bytes_eq_none`): the loop never reaches `accept` again, so any
  later socket events are never observed. -/
  | servingForever (c : Nat)
  /-- A connection was accepted with an output file open: `receive_audio`
  raises `NameError` on the bare global `wf`, which nothing in
  `listen_and_process` catches, terminating the loop. -/
  | nameErrorFromHandler (c : Nat)
  deriving Repr, DecidableEq

/-- Embeds `AudioReceiver.listen_and_process` against the accept outcomes
the socket yields, faithful to the handler semantics established elsewhere
in this file: a `socket.timeout` is swallowed (`continue`); a
`socket.error` breaks the loop when its errno is `EINTR` and otherwise is
swallowed with control falling through to code that reads the
never-assigned locals `conn`/`addr`, raising `UnboundLocalError`; an
accepted connection is handed synchronously to `receive_audio`, which —
per the Python 3 guard bug proved in `rxLoop_bytes_eq_none` — never
returns when no output file is open, and raises `NameError` on the bare
global `wf` when one is open. In every case at most one connection is ever
accepted, and no accept attempt follows a socket error. -/
def listen_and_process (wfOpen : Bool) : List AcceptEvent → ListenResult
  | [] => .listening
  | .timeout :: evs => listen_and_process wfOpen evs
  | .sockError eno :: _ =>
      if eno == EINTR then .brokeOnEintr else .crashedUnboundLocal
  | .conn c :: _ =>
      if wfOpen then .nameErrorFromHandler c else .servingForever c

/-! ### Lifecycle (`BaseAudio.shutdown`, `__main__`) -/

/-- The handle-holding attributes of a `BaseAudio` object together with a
count, per underlying resource, of how many release calls have been issued
against it (`stop_stream`/`close` on the stream, `terminate` on the
pyaudio handle, `close` on the socket). The handle fields model the Python
attributes: `none` is `None`, `some h` is a live object reference (any
pyaudio/socket object is truthy). -/
structure BaseAudioState where
  stream : Option Nat
  audioHandle : Option Nat
  sock : Option Nat
  streamStopCalls : Nat
  streamCloseCalls : Nat
  audioTerminateCalls : Nat
  sockCloseCalls : Nat
  deriving Repr, DecidableEq

/-- Embeds `BaseAudio.shutdown`: `if self.stream: self.stream.stop_stream();
self.stream.close()`; `if self.audio: self.audio.terminate()`;
`if self.sock: self.sock.close()`. Faithfully to the source, none of the
attributes is cleared, so the guards only test whether the attribute was
ever set. -/
def shutdown (s : BaseAudioState) : BaseAudioState :=
  let s :=
    if s.stream.isSome then
      { s with streamStopCalls := s.streamStopCalls + 1,
               streamCloseCalls := s.streamCloseCalls + 1 }
    else s
  let s :=
    if s.audioHandle.isSome then
      { s with audioTerminateCalls := s.audioTerminateCalls + 1 }
    else s
  if s.sock.isSome then { s with sockCloseCalls := s.sockCloseCalls + 1 } else s

/-- The attribute names `getattr` can resolve on an `AudioSender` instance:
the methods of `AudioSender` and of its base class `BaseAudio`. -/
def audioSenderMethodNames : List String :=
  ["socket_connect", "open_audio_stream", "send_frame",
   "send_frames_continuously", "send_frames_with_time_limit",
   "start_sending", "stop_sending",
   "list_devices", "shutdown", "handle_signal"]

/-- Python attribute lookup on an `AudioSender`: names not in the class
raise `AttributeError`. -/
def getattrAudioSender (name : String) : Except String String :=
  if name ∈ audioSenderMethodNames then .ok name else .error ("AttributeError: " ++ name)

/-- The tail of the `__main__` tx branch after `tx.start_sending()` has
returned normally (which requires a nonzero duration): the source then
executes `tx.stop_senddng()`. Returns the methods invoked after the send
loop, or the error raised. Neither `AttributeError` nor a normal return is
caught by the surrounding `except KeyboardInterrupt`. -/
def txMainNormalExitTail : Except String (List String) :=
  match getattrAudioSender "stop_senddng" with
  | .ok n => .ok [n]
  | .error e => .error e

/-! ### Sequential serving (receiver concurrency structure) -/

/-- The control position of the single receiver thread: either inside the
accept loop of `listen_and_process` (between calls to `receive_audio`), or
inside `receive_audio(conn)` for one accepted connection. This is the
program counter of the source, which has exactly one thread and one local
`conn`. -/
inductive RxPhase where
  | listening
  | serving (c : Nat)
  deriving Repr, DecidableEq

/-- Environment events for the serving-structure machine: a connection
attempt becomes ready to accept, or the currently running
`receive_audio` call returns. -/
inductive ServeEvent where
  | acceptReady (c : Nat)
  | handlerReturns
  deriving Repr, DecidableEq

/-- Trace entries recording when the receiver accepts a connection and
when a handler returns. -/
inductive ServeMark where
  | accepted (c : Nat)
  | returned
  deriving Repr, DecidableEq

/-- One step of the receiver against an environment event. While the
thread is inside `receive_audio` (phase `serving`), an `acceptReady`
attempt is not accepted — the source performs no `accept` call there, the
kernel merely queues the attempt — so the phase is unchanged and no
`accepted` mark is emitted. In phase `listening`, a ready attempt is
accepted and served; `handlerReturns` in phase `serving` falls back to the
accept loop. -/
def serveStep (st : RxPhase) (ev : ServeEvent) : RxPhase × List ServeMark :=
  match st, ev with
  | .listening, .acceptReady c => (.serving c, [.accepted c])
  | .listening, .handlerReturns => (.listening, [])
  | .serving c, .acceptReady _ => (.serving c, [])
  | .serving _, .handlerReturns => (.listening, [.returned])

/-- Run the serving-structure machine from a given phase, appending the
accept/return marks to an accumulated trace. -/
def serveRunFrom (st : RxPhase) (tr : List ServeMark) : List ServeEvent → RxPhase × List ServeMark
  | [] => (st, tr)
  | ev :: evs =>
      let r := serveStep st ev
      serveRunFrom r.1 (tr ++ r.2) evs

/-- Run the serving-structure machine from the initial `listening` phase,
collecting the trace of accept/return marks. -/
def serveRun (evs : List ServeEvent) : RxPhase × List ServeMark :=
  serveRunFrom .listening [] evs

/-- Number of connections accepted in a trace. -/
def countAccepted (tr : List ServeMark) : Nat :=
  (tr.filter fun m =>
    match m with
    | .accepted _ => true
    | .returned => false).length

/-- Number of handler returns in a trace. -/
def countReturned (tr : List ServeMark) : Nat :=
  (tr.filter fun m =>
    match m with
    | .accepted _ => false
    | .returned => true).length

/-- Number of connections the receiver is handling in a phase (0 or 1 by
construction: the source has a single thread and a single `conn` local). -/
def activeConns : RxPhase → Nat
  | .listening => 0
  | .serving _ => 1

/-! ### Helper lemmas -/

theorem rxLoop_bytes_eq_none (fuel : Nat) :
    ∀ (bs s : List Nat) (acc : List RxAction),
      rxLoop fuel false (.bytes bs) s acc = none := by
  induction fuel with
  | zero => intro bs s acc; rfl
  | succ n ih =>
      intro bs s acc
      simp only [rxLoop, pyEq, if_false, Bool.false_eq_true, if_neg, not_false_iff]
      exact ih _ _ _

theorem countAccepted_append (a b : List ServeMark) :
    countAccepted (a ++ b) = countAccepted a + countAccepted b := by
  simp [countAccepted, List.filter_append]

theorem countReturned_append (a b : List ServeMark) :
    countReturned (a ++ b) = countReturned a + countReturned b := by
  simp [countReturned, List.filter_append]

theorem serveRunFrom_invariant (evs : List ServeEvent) :
    ∀ (st : RxPhase) (tr : List ServeMark),
      countAccepted tr = countReturned tr + activeConns st →
      countAccepted (serveRunFrom st tr evs).2 =
        countReturned (serveRunFrom st tr evs).2 + activeConns (serveRunFrom st tr evs).1 := by
  induction evs with
  | nil => intro st tr h; exact h
  | cons ev evs ih =>
      intro st tr h
      cases st <;> cases ev <;>
        · simp only [serveRunFrom, serveStep]
          apply ih
          simp only [countAccepted_append, countReturned_append] at h ⊢
          simp only [countAccepted, countReturned, activeConns, List.filter, List.length] at h ⊢
          omega

/-! ### Claim theorems -/

/-- C1: the claim says the connection handler repeatedly reads a chunk and
writes it to the playback device until a read returns an empty result, then
stops and closes the stream and returns. In the code the loop guard
compares a `bytes` value against a `str` literal, which is never equal in
Python 3, so for every peer byte stream and every number of iterations the
handler (with no output file open) has not exited: the stream is never
stopped or closed and the handler never returns. -/
theorem receive_audio_never_finishes (fuel : Nat) (s : List Nat) :
    receive_audio fuel false s = none ∧ pyEq (.bytes []) (.str "") = false :=
  ⟨rxLoop_bytes_eq_none fuel _ _ _, rfl⟩

/-- C2 counterexample: the claim says the bytes returned equal the bytes
sent, unmodified. Sending the three bytes of a word followed by a newline
(length 3 ≤ 1024) returns the word without the newline: `handle` calls
`.strip()` on the received bytes. -/
theorem echo_modifies_input_cex :
    echoResponses (echoHandle "10.0.0.1" [104, 105, 10]) ≠ [[104, 105, 10]] := by
  decide

/-- C2 amended: for all inputs of at most 1024 bytes, the bytes returned
equal the bytes sent with leading and trailing ASCII whitespace stripped
(so they equal the bytes sent exactly when none is present at either end),
and the client address is logged before the response is sent. -/
theorem echo_strips_and_logs (addr : String) (sent : List Nat)
    (h : sent.length ≤ 1024) :
    echoResponses (echoHandle addr sent) = [stripBytes sent] ∧
    logsClientBeforeSend (echoHandle addr sent) = true := by
  refine ⟨?_, rfl⟩
  simp [echoHandle, echoResponses, List.take_of_length_le h]

/-- C2 witness: the amended theorem applied to a concrete 4-byte input. -/
theorem echo_strips_and_logs_witness :
    echoResponses (echoHandle "10.0.0.1" [32, 104, 105, 10]) =
      [stripBytes [32, 104, 105, 10]] ∧
    logsClientBeforeSend (echoHandle "10.0.0.1" [32, 104, 105, 10]) = true :=
  echo_strips_and_logs "10.0.0.1" [32, 104, 105, 10] (by decide)

/-- C3 counterexample: with rate 3, chunk size 2 and duration 1 the
binary64 computation is exact and the code sends `int(3 / 2 * 1) = 1`
chunk, while `round(rate/chunk_size × D) = 2` and
`ceil(rate/chunk_size × D) = 2`: the claim fails under either reading. -/
theorem duration_chunk_count_cex :
    (send_frames_with_time_limit ⟨3, 2, 1, 1⟩ (fun _ => 0)).length = 1 ∧
    specRoundChunkCount 3 2 1 = 2 ∧ specCeilChunkCount 3 2 1 = 2 := by
  refine ⟨by decide, ?_, ?_⟩
  · unfold specRoundChunkCount
    norm_num
  · unfold specCeilChunkCount
    norm_num [Nat.ceil_eq_iff]

/-- C3 amended: with a duration limit `D` set, the sender sends exactly
`int(rate / chunk_size * D)` chunks — the truncation toward zero of the
IEEE binary64 evaluation of `rate / chunk_size × D` — and then stops; the
count depends only on the configuration, not on network latency. It is
neither the claimed rounding nor the claimed ceiling: at rate 3, chunk
size 2, duration 1 the (exact) binary64 computation gives 1 chunk, not 2;
and binary64 rounding can drop below even the exact floor: at rate 1,
chunk size 49, duration 49 the program computes
`int((1/49)*49) = int(0.9999999999999999) = 0` and sends no chunk at all,
though `rate/chunk_size × D = 1` exactly, so round and ceil both give 1. -/
theorem send_frames_with_time_limit_count (cfg : TxConfig) (src : Nat → Nat) :
    (send_frames_with_time_limit cfg src).length =
      timeLimitChunkCount cfg.rate cfg.chunk_size cfg.duration ∧
    timeLimitChunkCount 3 2 1 = 1 ∧
    timeLimitChunkCount 1 49 49 = 0 ∧
    specRoundChunkCount 1 49 49 = 1 ∧
    specCeilChunkCount 1 49 49 = 1 := by
  refine ⟨by simp [send_frames_with_time_limit], by decide, by decide, ?_, ?_⟩
  · unfold specRoundChunkCount
    norm_num [Nat.floor_eq_iff]
  · unfold specCeilChunkCount
    norm_num [Nat.ceil_eq_iff]

/-- C4: the claim says the shutdown path runs on the normal-exit path
without raising. In the tx branch of the source, after `start_sending`
returns the next statement invokes the attribute `stop_senddng`, which no
class in the file defines — `stop_sending` (which would call `shutdown`)
does exist, as does `shutdown` itself — so the normal-exit path raises
`AttributeError` and `shutdown` is never reached. -/
theorem tx_normal_exit_raises_attribute_error :
    txMainNormalExitTail = .error "AttributeError: stop_senddng" ∧
    "stop_senddng" ∉ audioSenderMethodNames ∧
    "stop_sending" ∈ audioSenderMethodNames ∧
    "shutdown" ∈ audioSenderMethodNames :=
  ⟨rfl, by decide, by decide, by decide⟩

/-- C5: in the accept loop a `socket.timeout` is swallowed and the loop
proceeds to the next accept attempt, while every other socket error on
accept terminates the receive loop: via `break` when the errno is `EINTR`,
and via an unhandled `UnboundLocalError` otherwise — the swallowed error
falls through to code reading the locals `conn`/`addr`, which are
necessarily still unassigned, since serving an accepted connection never
returns control to the loop. Either way, no event after a socket error is
ever observed by the loop. -/
theorem accept_timeout_retried_errors_terminate (wfOpen : Bool)
    (evs rest : List AcceptEvent) (eno : Nat) :
    listen_and_process wfOpen (.timeout :: evs) = listen_and_process wfOpen evs ∧
    listen_and_process wfOpen (.sockError EINTR :: rest) = .brokeOnEintr ∧
    (eno ≠ EINTR →
      listen_and_process wfOpen (.sockError eno :: rest) = .crashedUnboundLocal) := by
  refine ⟨rfl, rfl, fun h => ?_⟩
  simp [listen_and_process, h]

/-- C5 witness: the theorem applied at errno 104 (`ECONNRESET`), with and
without pending later events. -/
theorem accept_timeout_retried_errors_terminate_witness :
    (104 : Nat) ≠ EINTR ∧
    listen_and_process false [.sockError 104, .conn 9] = .crashedUnboundLocal :=
  ⟨by decide,
    (accept_timeout_retried_errors_terminate false [] [.conn 9] 104).2.2 (by decide)⟩

/-- C6 counterexample: the claim says a second shutdown releases no handle
more than once. Starting from a state holding a live stream, audio handle
and socket with no release call yet issued, two shutdowns in sequence
issue every release call twice — `shutdown` never clears the attributes,
so the guards pass again on the second call. -/
theorem shutdown_twice_double_release_cex :
    (shutdown (shutdown ⟨some 1, some 1, some 1, 0, 0, 0, 0⟩)).streamStopCalls = 2 ∧
    (shutdown (shutdown ⟨some 1, some 1, some 1, 0, 0, 0, 0⟩)).streamCloseCalls = 2 ∧
    (shutdown (shutdown ⟨some 1, some 1, some 1, 0, 0, 0, 0⟩)).audioTerminateCalls = 2 ∧
    (shutdown (shutdown ⟨some 1, some 1, some 1, 0, 0, 0, 0⟩)).sockCloseCalls = 2 := by
  decide

/-- C6 amended: `shutdown` leaves the handle attributes set (it clears
nothing), so invoking it twice in sequence from a state holding all three
handles issues every release call — stream stop, stream close, audio
terminate, socket close — exactly twice; the shutdown path is not
at-most-once on any handle. -/
theorem shutdown_twice_repeats_all_releases (a b c w x y z : Nat) :
    shutdown (shutdown ⟨some a, some b, some c, w, x, y, z⟩) =
      ⟨some a, some b, some c, w + 2, x + 2, y + 2, z + 2⟩ ∧
    ∀ s : BaseAudioState,
      (shutdown s).stream = s.stream ∧ (shutdown s).audioHandle = s.audioHandle ∧
        (shutdown s).sock = s.sock := by
  refine ⟨rfl, fun s => ?_⟩
  simp only [shutdown]
  split <;> split <;> split <;> simp

/-- C7: every chunk the sender writes to the socket is the result of one
`stream.read(chunk_size)` call, whose byte length is
`chunk_size × channels × 2` for every configuration, device source and
read position. -/
theorem send_frame_length (cfg : TxConfig) (src : Nat → Nat) (pos : Nat) :
    (send_frame cfg src pos).length = cfg.chunk_size * cfg.channels * 2 := by
  simp [send_frame, streamRead, paInt16Width]

/-- C8: the claim says every received chunk is appended to the open output
file. With the output file open, the first loop iteration evaluates the
bare global name `wf` (the source writes `wf.writeframes(data)`, not
`self.wf.writeframes(data)`), which is undefined: the handler raises
`NameError` after one playback write and the file receives no data. The
header that `open_wave_file` would write does carry the configured channel
count, the 2-byte sample width and the frame rate. -/
theorem receive_audio_wave_file_name_error :
    receive_audio 5 true [1, 2, 3, 4] =
      some (.nameErrorOnWf [.streamOpen, .playWrite [1, 2, 3, 4]]) ∧
    fileWrites [.streamOpen, .playWrite [1, 2, 3, 4]] = [] ∧
    open_wave_file_header ⟨44100, 1024, 1⟩ = ⟨1, 2, 44100⟩ :=
  ⟨rfl, rfl, rfl⟩

/-- C9: the receiver is single-threaded and sequential: in every state
reachable by any event sequence at most one connection is being handled,
the number of accepted connections never exceeds the number of completed
handlers by more than the one currently active, and while a handler is
running a ready connection attempt is not accepted (the step leaves the
phase unchanged and emits no accept mark). -/
theorem receiver_serves_one_connection_at_a_time (evs : List ServeEvent) :
    activeConns (serveRun evs).1 ≤ 1 ∧
    countAccepted (serveRun evs).2 =
      countReturned (serveRun evs).2 + activeConns (serveRun evs).1 ∧
    ∀ c d : Nat, serveStep (.serving c) (.acceptReady d) = (.serving c, []) := by
  refine ⟨?_, serveRunFrom_invariant evs .listening [] rfl, fun c d => rfl⟩
  cases h : (serveRun evs).1 <;> simp [activeConns]

/-- C10: a configured duration of 0 — the `argparse` default for
`--duration` — is falsy in the `if self.duration:` test, so
`start_sending` runs the unbounded continuous-send loop rather than
sending `int(rate / chunk_size * 0) = 0` chunks and stopping. -/
theorem zero_duration_sends_continuously (rate chunk_size channels : Nat) :
    start_sending_plan ⟨rate, chunk_size, channels, cliDefaultDuration⟩ =
      .continuous ∧
    cliDefaultDuration = 0 :=
  ⟨rfl, rfl⟩
